import Mathlib

/-!
Verification development for the outbound request-routing core of a
transparent network proxy.  The definitions below are a shallow embedding of
the three source modules under study:

* `src/proxy/canonicalize.rs` — lazy DNS canonicalization of an `Addr`
  target: a background `Task` republishes the refined target through a
  bounded channel, and a consumer `Service` drains that channel on every
  readiness poll, rebuilding its downstream service.
* `src/proxy/resbal.rs` — the discovery adapter turning raw endpoint
  `Update::Add` / `Update::Remove` events into `Change::Insert` /
  `Change::Remove` events over freshly built backend services.
* `src/proxy/http/balance.rs` — the fallback composer dispatching each
  request either to the balancer pool or to a fallback router, keyed on the
  shared pool-emptiness flag.

Machine integers do not occur on the modelled paths; ports, socket
addresses and instants are modelled as `Nat`, DNS names as `String`.
Futures are flattened to their resolved outcomes: a single poll of a future
is modelled by the value or error it produced, and `Poll` mirrors Rust's
`Result<Async<T>, E>`.
-/

namespace LinkerdVerify

set_option autoImplicit false

/-! ## Polling primitives -/

/-- Model of Rust `Result<Async<T>, E>`: one poll either yields a value,
reports not-ready, or fails. -/
inductive Poll (α : Type) (E : Type) where
  | ready : α → Poll α E
  | notReady : Poll α E
  | err : E → Poll α E
  deriving DecidableEq

/-- Model of `Result::map_err` applied to a poll result. -/
def Poll.mapErr {α E E2 : Type} (f : E → E2) : Poll α E → Poll α E2
  | .ready a => .ready a
  | .notReady => .notReady
  | .err e => .err (f e)

/-! ## Address data model (`Addr` / `NameAddr` as used by canonicalize.rs) -/

/-- A DNS name paired with a port (`NameAddr`). -/
structure NameAddr where
  name : String
  port : Nat
  deriving DecidableEq

/-- `Addr`: either a DNS name with port, or a concrete socket address
(modelled as a bare `Nat`). -/
inductive Addr where
  | Name : NameAddr → Addr
  | Socket : Nat → Addr
  deriving DecidableEq

/-- `Addr::name_addr`: the name component, if this address is a name. -/
def Addr.nameAddr : Addr → Option NameAddr
  | .Name na => some na
  | .Socket _ => none

/-- `Canonicalize::uncanonical_name` for `Addr`: the DNS name to refine, if
any (`self.name_addr().map(NameAddr::name)`). -/
def Addr.uncanonicalName (a : Addr) : Option String :=
  a.nameAddr.map NameAddr.name

/-- `Canonicalize::with_canonical` for `Addr`: a name address is rebuilt
from the canonical name and the original port; any other address is
returned unchanged (the source clones `self` after logging). -/
def Addr.withCanonical (a : Addr) (canonical : String) : Addr :=
  match a with
  | .Name original => .Name ⟨canonical, original.port⟩
  | _ => a

/-- `Canonicalize::should_canonicalize`: default method, true iff
`uncanonical_name` is `Some`. -/
def Addr.shouldCanonicalize (a : Addr) : Bool :=
  a.uncanonicalName.isSome

/-! ## DNS refine outcomes (canonicalize.rs error path) -/

/-- Duration (seconds) to wait before polling DNS again after an error or a
NXDOMAIN response with no TTL (`DNS_ERROR_TTL = Duration::from_secs(3)`). -/
def DNS_ERROR_TTL : Nat := 3

/-- The kinds of `dns::ResolveError` the task distinguishes: only
`NoRecordsFound` (carrying an optional authoritative `valid_until`
deadline) is special-cased; every other kind is collapsed. -/
inductive ResolveErrorKind where
  | NoRecordsFound : Option Nat → ResolveErrorKind
  | OtherErrorKind : ResolveErrorKind
  deriving DecidableEq

/-- A DNS resolution error (`dns::ResolveError`), reduced to its kind. -/
structure ResolveError where
  kind : ResolveErrorKind
  deriving DecidableEq

/-- Error of `Timeout<dns::RefineFuture>`: either the inner resolver error,
or the timeout elapsing (in which case `into_inner()` is `None`). -/
inductive TimeoutError where
  | inner : ResolveError → TimeoutError
  | elapsed : TimeoutError
  deriving DecidableEq

/-- `tokio_timer::timeout::Error::into_inner`. -/
def TimeoutError.intoInner : TimeoutError → Option ResolveError
  | .inner e => some e
  | .elapsed => none

/-! ## Bounded publish channel (futures 0.1 `mpsc::channel(2)` as used here) -/

/-- The bounded mpsc channel shared by the task (its single `Sender`) and
the consumer service (the `Receiver`): undelivered values in order, the
buffer size given at creation, whether the receiver is still alive, and
whether the sender's task is currently parked.  In futures 0.1 a sender is
parked only after one of its sends makes the number of queued messages
exceed the buffer (each sender has one guaranteed slot past the buffer),
and a parked sender's `try_send` fails with `full`; the receiver unparks a
parked sender when it dequeues.  No modelled run interleaves a dequeue
between the task's sends, so unparking never occurs inside a run. -/
structure Channel (N : Type) where
  buffer : List N
  capacity : Nat
  connected : Bool
  parked : Bool
  deriving DecidableEq

/-- The two `TrySendError` cases of a bounded channel. -/
inductive TrySendError where
  | full
  | disconnected
  deriving DecidableEq

/-- `TrySendError::is_disconnected`. -/
def TrySendError.isDisconnected : TrySendError → Bool
  | .disconnected => true
  | .full => false

/-- `Sender::try_send` (futures 0.1): fails with `disconnected` when the
receiver is gone (dropping the receiver unparks every sender, so the
disconnect is observed even by a parked one); fails with `full` when the
sender is parked; otherwise enqueues the value, parking the sender when
this send makes the queue exceed the buffer.  With the single sender in
use here, `channel(2)` therefore accepts three undelivered values before a
send first fails. -/
def Channel.trySend {N : Type} (c : Channel N) (v : N) :
    Channel N × Option TrySendError :=
  if c.connected = false then (c, some TrySendError.disconnected)
  else if c.parked then (c, some TrySendError.full)
  else
    (⟨c.buffer ++ [v], c.capacity, c.connected,
      decide (c.capacity < c.buffer.length + 1)⟩, none)

/-! ## Canonicalizer task (canonicalize.rs `Task` / `Cache`) -/

/-- `Cache<N>`: tracks the state of the last resolution, exactly the three
source variants. -/
inductive Cache (N : Type) where
  | AwaitingInitial
  | Unresolved
  | Resolved : N → Cache N
  deriving DecidableEq

/-- `Cache::get`: the cached value, only in the `Resolved` state. -/
def Cache.get {N : Type} : Cache N → Option N
  | .Resolved r => some r
  | _ => none

/-- The task-owned state of one canonicalizer: the original target and the
resolution cache (the `State` enum is represented by which step is taken
and by `StepResult.validUntil`). -/
structure TaskState where
  original : Addr
  resolved : Cache Addr
  deriving DecidableEq

/-- One completed DNS refine attempt, as observed by `Task::poll` in the
`Pending` state: either `Refine { name, valid_until }`, or an error
together with the clock reading (`clock::now()`) at which it is handled. -/
inductive RefineResult where
  | refineOk : String → Nat → RefineResult
  | refineErr : TimeoutError → Nat → RefineResult
  deriving DecidableEq

/-- The observable effect of handling one refine outcome: the task state
and channel afterwards, whether the task returned (receiver disconnected),
and the deadline armed for the `ValidUntil` delay (none when the task
returned). -/
structure StepResult where
  task : TaskState
  chan : Channel Addr
  terminated : Bool
  validUntil : Option Nat
  deriving DecidableEq

/-- The retry deadline computed on a refine failure:
`e.into_inner().and_then(NoRecordsFound.valid_until).unwrap_or(now + DNS_ERROR_TTL)`. -/
def dnsErrorRetryDeadline (e : TimeoutError) (now : Nat) : Nat :=
  (e.intoInner.bind fun re =>
    match re.kind with
    | .NoRecordsFound validUntil => validUntil
    | _ => none).getD (now + DNS_ERROR_TTL)

/-- One iteration of `Task::poll` handling a completed refine attempt.

On success: compute `resolved = original.with_canonical(name)`; if it
differs from the cached `Resolved` value, `try_send` it — returning if the
receiver is disconnected — and record it as `Cache::Resolved` (note the
source records it even when `try_send` failed with `full`); arm the delay
for the returned `valid_until`.

On failure: if the cache is `AwaitingInitial`, `try_send` the original
target — returning if disconnected — and mark the cache `Unresolved`;
otherwise send nothing; then arm the delay for `dnsErrorRetryDeadline`. -/
def taskPollStep (t : TaskState) (ch : Channel Addr) (ev : RefineResult) :
    StepResult :=
  match ev with
  | .refineOk name validUntil =>
      let resolved := t.original.withCanonical name
      if t.resolved.get ≠ some resolved then
        let sent := ch.trySend resolved
        if (sent.2.map TrySendError.isDisconnected).getD false then
          ⟨t, sent.1, true, none⟩
        else
          ⟨⟨t.original, Cache.Resolved resolved⟩, sent.1, false, some validUntil⟩
      else
        ⟨t, ch, false, some validUntil⟩
  | .refineErr e now =>
      if t.resolved = Cache.AwaitingInitial then
        let sent := ch.trySend t.original
        if (sent.2.map TrySendError.isDisconnected).getD false then
          ⟨t, sent.1, true, none⟩
        else
          ⟨⟨t.original, Cache.Unresolved⟩, sent.1, false,
            some (dnsErrorRetryDeadline e now)⟩
      else
        ⟨t, ch, false, some (dnsErrorRetryDeadline e now)⟩

/-- A run of the task over a list of completed refine attempts, stopping
early if a step observes the disconnected receiver (the empty run reports
no armed deadline). -/
def taskRun (t : TaskState) (ch : Channel Addr) :
    List RefineResult → StepResult
  | [] => ⟨t, ch, false, none⟩
  | ev :: evs =>
      let r := taskPollStep t ch ev
      if r.terminated then r else taskRun r.task r.chan evs

/-! ## Canonicalizer consumer service (canonicalize.rs `Service`) -/

/-- The consumer-facing `Service`: the pending published updates still in
the receiver, and the at-most-one live downstream service. -/
structure ConsumerState (V : Type) where
  queued : List Addr
  service : Option V

/-- The drain loop of `Service::poll_ready`: while the receiver yields a
canonical value, build `stack.make(&canonical)` and replace `self.service`
with it; a make error aborts the loop (`?`), leaving the rest of the queue
and the last successfully built service.  Returns (remaining queue,
service, error if any). -/
def drainAndRebuild {E V : Type} (make : Addr → Except E V) :
    List Addr → Option V → List Addr × Option V × Option E
  | [], service => ([], service, none)
  | canonical :: rest, service =>
      match make canonical with
      | .error e => (rest, service, some e)
      | .ok svc => drainAndRebuild make rest (some svc)

/-- `Service::poll_ready`: drain all pending updates rebuilding the
downstream service, then report the rebuilt service's readiness (not-ready
while no resolution has completed). -/
def servicePollReady {E V : Type} (make : Addr → Except E V)
    (pollSvc : V → Poll Unit E) (s : ConsumerState V) :
    Poll Unit E × ConsumerState V :=
  match drainAndRebuild make s.queued s.service with
  | (rest, service, some e) => (.err e, ⟨rest, service⟩)
  | (rest, some svc, none) => (pollSvc svc, ⟨rest, some svc⟩)
  | (rest, none, none) => (.notReady, ⟨rest, none⟩)

/-! ## Canonicalizer stack (canonicalize.rs `Stack::make`) -/

/-- `svc::Either`: the stack's output is `A` (dynamic canonicalizing
service) or `B` (the inner stack's value, passed through). -/
inductive SvcEither (α β : Type) where
  | A : α → SvcEither α β
  | B : β → SvcEither α β
  deriving DecidableEq

/-- What `Stack::make` sets up for a refinable target: the spawned task in
its initial state, the fresh `mpsc::channel(2)`, and the consumer service
starting with no downstream service. -/
structure MadeCanonical (V : Type) where
  task : TaskState
  chan : Channel Addr
  svc : ConsumerState V

/-- `Stack::make`: a refinable target spawns a background task over a
fresh capacity-2 channel and yields `Either::A` of a not-yet-ready
dynamic service; a non-refinable target is passed to the inner stack and
its value returned unchanged as `Either::B`.  The second component records
whether a background task was spawned. -/
def canonicalizeMake {E V : Type} (innerMake : Addr → Except E V)
    (name : Addr) : Except E (SvcEither (MadeCanonical V) V) × Bool :=
  if name.shouldCanonicalize then
    (.ok (.A ⟨⟨name, Cache.AwaitingInitial⟩, ⟨[], 2, true, false⟩, ⟨[], none⟩⟩), true)
  else
    ((innerMake name).map SvcEither.B, false)

/-! ## Discovery adapter (resbal.rs `Discover`) -/

/-- `Update<T>`: a raw endpoint event from the resolution source, keyed by
socket address (modelled as `Nat`). -/
inductive Update (T : Type) where
  | Add : Nat → T → Update T
  | Remove : Nat → Update T
  deriving DecidableEq

/-- `tower_discover::Change`: the event surfaced to the balancer. -/
inductive Change (K V : Type) where
  | Insert : K → V → Change K V
  | Remove : K → Change K V
  deriving DecidableEq

/-- The tagged error union of resbal.rs: resolution failure vs. endpoint
stack (factory) failure. -/
inductive ResBalError (R M : Type) where
  | Resolve : R → ResBalError R M
  | Stack : M → ResBalError R M
  deriving DecidableEq

/-- `Discover::poll`: propagate not-ready; tag a resolution error
`Resolve`; on `Add`, invoke the factory once — tagging its failure `Stack`
— and yield `Insert` with the built service; on `Remove`, yield
`Remove`. -/
def discoverPoll {T V R M : Type} (make : T → Except M V)
    (rp : Poll (Update T) R) : Poll (Change Nat V) (ResBalError R M) :=
  match rp with
  | .notReady => .notReady
  | .err e => .err (ResBalError.Resolve e)
  | .ready (.Add addr target) =>
      match make target with
      | .error e => .err (ResBalError.Stack e)
      | .ok svc => .ready (Change.Insert addr svc)
  | .ready (.Remove addr) => .ready (Change.Remove addr)

/-- The targets on which `Discover::poll` invokes the endpoint factory:
exactly the target of an `Add` event, nothing otherwise. -/
def discoverPollMakeCalls {T R : Type} (rp : Poll (Update T) R) : List T :=
  match rp with
  | .ready (.Add _ target) => [target]
  | _ => []

/-! ## Fallback composer (balance.rs `Service`) -/

/-- The tagged error union of balance.rs: balancer-path failure vs.
fallback-path failure. -/
inductive FbError (EB EF : Type) where
  | Balance : EB → FbError EB EF
  | Fallback : EF → FbError EB EF
  deriving DecidableEq

/-- `future::Either`, recording which inner service a dispatch went to:
`A` wraps the fallback router's future, `B` the balancer's. -/
inductive FutEither (α β : Type) where
  | A : α → FutEither α β
  | B : β → FutEither α β
  deriving DecidableEq

/-- True iff the dispatch took the `A` (fallback router) branch. -/
def FutEither.isA {α β : Type} : FutEither α β → Bool
  | .A _ => true
  | .B _ => false

/-- True iff the dispatch took the `B` (balancer pool) branch. -/
def FutEither.isB {α β : Type} : FutEither α β → Bool
  | .A _ => false
  | .B _ => true

/-- One snapshot of the balance.rs `Service`: the balancer pool and the
fallback router, each flattened to its call function and current readiness,
plus the value the shared `EndpointStatus::is_empty()` flag reads at this
instant. -/
structure FallbackComposer (Req Resp EB EF : Type) where
  balanceCall : Req → Except EB Resp
  balancePollReady : Poll Unit EB
  routerCall : Req → Except EF Resp
  routerPollReady : Poll Unit EF
  statusIsEmpty : Bool

/-- `Service::call`: if the shared status flag reads empty, dispatch to the
fallback router with errors tagged `Fallback` (`Either::A`); otherwise
dispatch to the balancer with errors tagged `Balance` (`Either::B`). -/
def FallbackComposer.call {Req Resp EB EF : Type}
    (s : FallbackComposer Req Resp EB EF) (req : Req) :
    FutEither (Except (FbError EB EF) Resp) (Except (FbError EB EF) Resp) :=
  if s.statusIsEmpty then
    .A ((s.routerCall req).mapError FbError.Fallback)
  else
    .B ((s.balanceCall req).mapError FbError.Balance)

/-- `Service::poll_ready`: report the balancer pool's readiness with errors
tagged `Balance`.  The fallback router's readiness is not consulted. -/
def FallbackComposer.pollReady {Req Resp EB EF : Type}
    (s : FallbackComposer Req Resp EB EF) : Poll Unit (FbError EB EF) :=
  s.balancePollReady.mapErr FbError.Balance

/-! ## Concrete fixtures for exercising the definitions -/

/-- A refinable target, `web:8080`. -/
def webTarget : Addr := Addr.Name ⟨"web", 8080⟩

/-- A canonicalized form of `webTarget`. -/
def canonTarget : Addr := Addr.Name ⟨"web.example.com.", 8080⟩

/-- A fresh publish channel as created by `Stack::make`: empty, buffer
size 2, receiver alive, sender unparked. -/
def freshChan : Channel Addr := ⟨[], 2, true, false⟩

/-- Two consecutive refine failures: a timeout, then NXDOMAIN without a
TTL. -/
def twoFailures : List RefineResult :=
  [RefineResult.refineErr TimeoutError.elapsed 0,
   RefineResult.refineErr
     (TimeoutError.inner ⟨ResolveErrorKind.NoRecordsFound none⟩) 5]

/-- Four successful refinements to pairwise distinct canonical names. -/
def fourDistinctRefines : List RefineResult :=
  [RefineResult.refineOk "web.a.example.com." 10,
   RefineResult.refineOk "web.b.example.com." 20,
   RefineResult.refineOk "web.c.example.com." 30,
   RefineResult.refineOk "web.d.example.com." 40]

/-- A fallback composer snapshot whose pool-emptiness flag reads empty,
with the balancer ready and the fallback router not ready. -/
def emptyPoolComposer : FallbackComposer Nat Nat Nat Nat :=
  ⟨fun r => Except.ok (r + 1), Poll.ready (),
   fun r => Except.ok (r + 2), Poll.notReady, true⟩

/-- A fallback composer snapshot with a populated pool: same balancer
readiness as `emptyPoolComposer`, differing flag and fallback state. -/
def fullPoolComposer : FallbackComposer Nat Nat Nat Nat :=
  ⟨fun r => Except.ok (r + 1), Poll.ready (),
   fun r => Except.ok (r + 3), Poll.ready (), false⟩

/-! ## Step lemmas for the canonicalizer task -/

/-- A refine failure observed with the cache past `AwaitingInitial` sends
nothing: the task and channel are untouched and only the retry delay is
armed. -/
theorem taskPollStep_err_no_republish (t : TaskState) (ch : Channel Addr)
    (e : TimeoutError) (now : Nat)
    (ht : t.resolved ≠ Cache.AwaitingInitial) :
    taskPollStep t ch (RefineResult.refineErr e now)
      = ⟨t, ch, false, some (dnsErrorRetryDeadline e now)⟩ := by
  simp [taskPollStep, ht]

/-- The first refine failure, with the cache `AwaitingInitial` and a
connected channel whose sender is not parked, sends the original target
and marks the cache `Unresolved`. -/
theorem taskPollStep_err_first (t : TaskState) (ch : Channel Addr)
    (e : TimeoutError) (now : Nat)
    (ht : t.resolved = Cache.AwaitingInitial)
    (hconn : ch.connected = true)
    (hpark : ch.parked = false) :
    taskPollStep t ch (RefineResult.refineErr e now)
      = ⟨⟨t.original, Cache.Unresolved⟩,
         ⟨ch.buffer ++ [t.original], ch.capacity, ch.connected,
           decide (ch.capacity < ch.buffer.length + 1)⟩,
         false, some (dnsErrorRetryDeadline e now)⟩ := by
  simp [taskPollStep, Channel.trySend, ht, hconn, hpark]

/-- The first refine failure with a connected channel whose sender is
parked drops the send entirely, yet still marks the cache `Unresolved`. -/
theorem taskPollStep_err_first_parked (t : TaskState) (ch : Channel Addr)
    (e : TimeoutError) (now : Nat)
    (ht : t.resolved = Cache.AwaitingInitial)
    (hconn : ch.connected = true)
    (hpark : ch.parked = true) :
    taskPollStep t ch (RefineResult.refineErr e now)
      = ⟨⟨t.original, Cache.Unresolved⟩, ch, false,
         some (dnsErrorRetryDeadline e now)⟩ := by
  simp [taskPollStep, Channel.trySend, ht, hconn, hpark,
    TrySendError.isDisconnected]

/-- A successful refinement whose resolved value equals the cached
`Resolved` value sends nothing and leaves the task unchanged. -/
theorem taskPollStep_ok_cached (t : TaskState) (ch : Channel Addr)
    (name : String) (vu : Nat)
    (hc : t.resolved.get = some (t.original.withCanonical name)) :
    taskPollStep t ch (RefineResult.refineOk name vu)
      = ⟨t, ch, false, some vu⟩ := by
  simp [taskPollStep, hc]

/-- A successful refinement to a value differing from the cache, with a
connected channel whose sender is not parked, delivers exactly that value
and records it as the new `Resolved` cache value. -/
theorem taskPollStep_ok_publish (t : TaskState) (ch : Channel Addr)
    (name : String) (vu : Nat)
    (hconn : ch.connected = true)
    (hpark : ch.parked = false)
    (hnew : t.resolved.get ≠ some (t.original.withCanonical name)) :
    taskPollStep t ch (RefineResult.refineOk name vu)
      = ⟨⟨t.original, Cache.Resolved (t.original.withCanonical name)⟩,
         ⟨ch.buffer ++ [t.original.withCanonical name], ch.capacity,
           ch.connected, decide (ch.capacity < ch.buffer.length + 1)⟩,
         false, some vu⟩ := by
  simp [taskPollStep, Channel.trySend, hconn, hpark, hnew]

/-- A run every step of which leaves the task and channel untouched (and
does not terminate) leaves the whole run untouched. -/
theorem taskRun_fixed (t : TaskState) (ch : Channel Addr)
    (evs : List RefineResult)
    (h : ∀ ev ∈ evs, (taskPollStep t ch ev).task = t ∧
      (taskPollStep t ch ev).chan = ch ∧
      (taskPollStep t ch ev).terminated = false) :
    (taskRun t ch evs).task = t ∧ (taskRun t ch evs).chan = ch ∧
      (taskRun t ch evs).terminated = false := by
  induction evs with
  | nil => exact ⟨rfl, rfl, rfl⟩
  | cons ev evs ih =>
      have h0 := h ev (by simp)
      have ih2 := ih (fun e he => h e (by simp [he]))
      rw [taskRun]
      simp only [h0.2.2, Bool.false_eq_true, if_false, h0.1, h0.2.1]
      exact ih2

/-! ## Claim theorems -/

/-- Claim C1: a dispatch through the fallback composer goes to the fallback
router exactly when the shared pool-emptiness flag reads empty (its error,
if any, tagged `Fallback`), and otherwise to the balancer pool (its error
tagged `Balance`); the two branches are mutually exclusive, so no single
dispatch is sent to both. -/
theorem fallback_dispatch_routes_on_emptiness
    {Req Resp EB EF : Type} (s : FallbackComposer Req Resp EB EF)
    (req : Req) :
    (s.statusIsEmpty = true →
      s.call req
        = FutEither.A ((s.routerCall req).mapError FbError.Fallback)) ∧
    (s.statusIsEmpty = false →
      s.call req
        = FutEither.B ((s.balanceCall req).mapError FbError.Balance)) ∧
    (s.call req).isA = !(s.call req).isB := by
  cases h : s.statusIsEmpty <;>
    simp [FallbackComposer.call, h, FutEither.isA, FutEither.isB]

/-- Witness for C1: with an empty pool, a concrete dispatch goes to the
fallback router. -/
theorem fallback_dispatch_routes_on_emptiness_witness :
    emptyPoolComposer.call 5
      = FutEither.A ((emptyPoolComposer.routerCall 5).mapError
          FbError.Fallback) :=
  (fallback_dispatch_routes_on_emptiness emptyPoolComposer 5).1 rfl

/-- Claim C2 counterexample: with the pool-emptiness flag reading empty,
the fallback router not ready and the balancer ready, `poll_ready` reports
ready — the balancer pool's readiness — not the fallback's readiness as the
claim states. -/
theorem fallback_poll_ready_ignores_fallback_cx :
    emptyPoolComposer.statusIsEmpty = true ∧
    emptyPoolComposer.routerPollReady = Poll.notReady ∧
    emptyPoolComposer.pollReady = Poll.ready () ∧
    emptyPoolComposer.pollReady
      ≠ emptyPoolComposer.routerPollReady.mapErr FbError.Fallback :=
  ⟨rfl, rfl, rfl, by decide⟩

/-- Claim C2 (amended): every readiness poll reports the balancer pool's
readiness with errors tagged `Balance`, regardless of the emptiness flag —
so the primary pool is polled on every readiness check — and the fallback's
readiness is never consulted: two snapshots agreeing on the balancer's
readiness report identical readiness whatever their flags and fallback
states. -/
theorem fallback_poll_ready_amended
    {Req Resp EB EF : Type} (s s2 : FallbackComposer Req Resp EB EF)
    (h : s.balancePollReady = s2.balancePollReady) :
    s.pollReady = s.balancePollReady.mapErr FbError.Balance ∧
    s.pollReady = s2.pollReady := by
  refine ⟨rfl, ?_⟩
  unfold FallbackComposer.pollReady
  rw [h]

/-- Witness for C2 (amended): the empty-pool and populated-pool snapshots
agree on the balancer's readiness, hence report the same readiness. -/
theorem fallback_poll_ready_amended_witness :
    emptyPoolComposer.pollReady = fullPoolComposer.pollReady :=
  (fallback_poll_ready_amended emptyPoolComposer fullPoolComposer rfl).2

/-- Claim C10: `with_canonical` returns any non-name address unchanged,
ignoring the canonical-name argument; a name address is rewritten to the
canonical name, preserving the original port. -/
theorem addr_with_canonical_spec
    (a : Addr) (canonical : String) (h : a.nameAddr = none) :
    a.withCanonical canonical = a ∧
    (∀ (n c2 : String) (p : Nat),
      (Addr.Name ⟨n, p⟩).withCanonical c2 = Addr.Name ⟨c2, p⟩) := by
  refine ⟨?_, fun n c2 p => rfl⟩
  cases a with
  | Name na => simp [Addr.nameAddr] at h
  | Socket sa => rfl

/-- Witness for C10: a socket address survives canonicalization
unchanged. -/
theorem addr_with_canonical_spec_witness :
    (Addr.Socket 7).withCanonical "web.example.com." = Addr.Socket 7 :=
  (addr_with_canonical_spec (Addr.Socket 7) "web.example.com." rfl).1

/-- Claim C3: in a run where every refine attempt fails, the first failure
— taken with the cache `AwaitingInitial` — sends exactly one value, the
original unrefined target, and moves the cache to `Unresolved`; any failure
observed with the cache `Unresolved` or `Resolved` sends nothing. -/
theorem canonicalize_failure_publishes_once
    (orig : Addr) (evs : List RefineResult)
    (hne : evs ≠ [])
    (herr : ∀ ev ∈ evs, ∃ e n, ev = RefineResult.refineErr e n) :
    ((taskRun ⟨orig, Cache.AwaitingInitial⟩ ⟨[], 2, true, false⟩ evs).chan.buffer
        = [orig] ∧
     (taskRun ⟨orig, Cache.AwaitingInitial⟩ ⟨[], 2, true, false⟩ evs).task.resolved
        = Cache.Unresolved) ∧
    (∀ (t : TaskState) (ch : Channel Addr) (e : TimeoutError) (now : Nat),
      t.resolved ≠ Cache.AwaitingInitial →
      (taskPollStep t ch (RefineResult.refineErr e now)).chan = ch ∧
      (taskPollStep t ch (RefineResult.refineErr e now)).task = t) := by
  constructor
  · obtain ⟨ev, evs2, rfl⟩ : ∃ ev evs2, evs = ev :: evs2 := by
      cases evs with
      | nil => exact absurd rfl hne
      | cons a l => exact ⟨a, l, rfl⟩
    obtain ⟨e, n, rfl⟩ := herr ev (List.mem_cons_self ev evs2)
    have h1 : taskPollStep ⟨orig, Cache.AwaitingInitial⟩
        ⟨[], 2, true, false⟩ (RefineResult.refineErr e n)
        = ⟨⟨orig, Cache.Unresolved⟩, ⟨[orig], 2, true, false⟩, false,
           some (dnsErrorRetryDeadline e n)⟩ := rfl
    have hfix := taskRun_fixed ⟨orig, Cache.Unresolved⟩ ⟨[orig], 2, true, false⟩
      evs2 ?_
    · rw [taskRun, h1]
      simp only [Bool.false_eq_true, if_false, List.nil_append]
      exact ⟨by rw [hfix.2.1], by rw [hfix.1]⟩
    · intro ev2 hev2
      obtain ⟨e2, n2, rfl⟩ := herr ev2 (List.mem_cons_of_mem _ hev2)
      rw [taskPollStep_err_no_republish _ _ _ _ (by simp)]
      exact ⟨rfl, rfl, rfl⟩
  · intro t ch e now ht
    rw [taskPollStep_err_no_republish t ch e now ht]
    exact ⟨rfl, rfl⟩

/-- Witness for C3: two consecutive failures from the initial state leave
exactly the original target in the channel, with the cache `Unresolved`. -/
theorem canonicalize_failure_publishes_once_witness :
    (taskRun ⟨webTarget, Cache.AwaitingInitial⟩ ⟨[], 2, true, false⟩
        twoFailures).chan.buffer = [webTarget] :=
  ((canonicalize_failure_publishes_once webTarget twoFailures (by simp [twoFailures])
      (by
        intro ev hev
        simp only [twoFailures, List.mem_cons, List.mem_singleton,
          List.not_mem_nil, or_false] at hev
        rcases hev with rfl | rfl
        · exact ⟨TimeoutError.elapsed, 0, rfl⟩
        · exact ⟨TimeoutError.inner ⟨ResolveErrorKind.NoRecordsFound none⟩,
            5, rfl⟩)).1).1

/-- Claim C4: repeated resolution to the same canonical value publishes
exactly once.  A nonempty all-success run from the initial state, all of
whose refinements resolve to the same value `v`, delivers exactly one
update — `v` — into the channel and caches `Resolved v`, however many DNS
queries the run contains; and, per step, a refinement whose resolved value
equals the cached `Resolved` value sends nothing and leaves the task
unchanged. -/
theorem canonicalize_publish_idempotent
    (orig v : Addr) (evs : List RefineResult)
    (hne : evs ≠ [])
    (hall : ∀ ev ∈ evs, ∃ n u, ev = RefineResult.refineOk n u ∧
      orig.withCanonical n = v) :
    ((taskRun ⟨orig, Cache.AwaitingInitial⟩ ⟨[], 2, true, false⟩ evs).chan.buffer
        = [v] ∧
     (taskRun ⟨orig, Cache.AwaitingInitial⟩ ⟨[], 2, true, false⟩ evs).task.resolved
        = Cache.Resolved v) ∧
    (∀ (t : TaskState) (ch : Channel Addr) (name : String) (vu : Nat),
      t.resolved.get = some (t.original.withCanonical name) →
      (taskPollStep t ch (RefineResult.refineOk name vu)).chan = ch ∧
      (taskPollStep t ch (RefineResult.refineOk name vu)).task = t) := by
  constructor
  · obtain ⟨ev, evs2, rfl⟩ : ∃ ev evs2, evs = ev :: evs2 := by
      cases evs with
      | nil => exact absurd rfl hne
      | cons a l => exact ⟨a, l, rfl⟩
    obtain ⟨n, u, rfl, hv⟩ := hall ev (List.mem_cons_self ev evs2)
    have h1 : taskPollStep ⟨orig, Cache.AwaitingInitial⟩
        ⟨[], 2, true, false⟩ (RefineResult.refineOk n u)
        = ⟨⟨orig, Cache.Resolved (orig.withCanonical n)⟩,
           ⟨[orig.withCanonical n], 2, true, false⟩, false, some u⟩ := rfl
    rw [hv] at h1
    have hfix := taskRun_fixed ⟨orig, Cache.Resolved v⟩ ⟨[v], 2, true, false⟩
      evs2 ?_
    · rw [taskRun, h1]
      simp only [Bool.false_eq_true, if_false, List.nil_append]
      exact ⟨by rw [hfix.2.1], by rw [hfix.1]⟩
    · intro ev2 hev2
      obtain ⟨n2, u2, rfl, hv2⟩ := hall ev2 (List.mem_cons_of_mem _ hev2)
      rw [taskPollStep_ok_cached _ _ _ _ (by simp [Cache.get, hv2])]
      exact ⟨rfl, rfl, rfl⟩
  · intro t ch name vu hc
    rw [taskPollStep_ok_cached t ch name vu hc]
    exact ⟨rfl, rfl⟩

/-- Witness for C4: three refinements all resolving to the same canonical
name deliver a single update. -/
theorem canonicalize_publish_idempotent_witness :
    (taskRun ⟨webTarget, Cache.AwaitingInitial⟩ ⟨[], 2, true, false⟩
        [RefineResult.refineOk "web.example.com." 10,
         RefineResult.refineOk "web.example.com." 20,
         RefineResult.refineOk "web.example.com." 30]).chan.buffer
      = [canonTarget] :=
  ((canonicalize_publish_idempotent webTarget canonTarget _ (by simp)
      (by
        intro ev hev
        simp only [List.mem_cons, List.mem_singleton, List.not_mem_nil,
          or_false] at hev
        rcases hev with rfl | rfl | rfl
        · exact ⟨"web.example.com.", 10, rfl, rfl⟩
        · exact ⟨"web.example.com.", 20, rfl, rfl⟩
        · exact ⟨"web.example.com.", 30, rfl, rfl⟩)).1).1

/-- Claim C7: on every refine failure the armed retry deadline is the
authoritative negative-cache deadline when the error is `NoRecordsFound`
carrying one, and the current time plus exactly `DNS_ERROR_TTL = 3` seconds
in every other case (timeout included); the task then arms the `ValidUntil`
delay for that deadline instead of terminating. -/
theorem canonicalize_error_retry_deadline
    (t : TaskState) (ch : Channel Addr) (e : TimeoutError) (now : Nat)
    (hconn : ch.connected = true) :
    (taskPollStep t ch (RefineResult.refineErr e now)).terminated = false ∧
    (taskPollStep t ch (RefineResult.refineErr e now)).validUntil = some
      (match e with
       | .inner ⟨.NoRecordsFound (some vu)⟩ => vu
       | _ => now + DNS_ERROR_TTL) ∧
    DNS_ERROR_TTL = 3 := by
  have hstep : (taskPollStep t ch (RefineResult.refineErr e now)).terminated
        = false ∧
      (taskPollStep t ch (RefineResult.refineErr e now)).validUntil
        = some (dnsErrorRetryDeadline e now) := by
    by_cases ht : t.resolved = Cache.AwaitingInitial
    · cases hpark : ch.parked with
      | false =>
          rw [taskPollStep_err_first t ch e now ht hconn hpark]
          exact ⟨rfl, rfl⟩
      | true =>
          rw [taskPollStep_err_first_parked t ch e now ht hconn hpark]
          exact ⟨rfl, rfl⟩
    · rw [taskPollStep_err_no_republish t ch e now ht]
      exact ⟨rfl, rfl⟩
  refine ⟨hstep.1, ?_, rfl⟩
  rw [hstep.2]
  rcases e with re | _
  · rcases re with ⟨k⟩
    rcases k with vu | _
    · rcases vu with _ | vu <;>
        simp [dnsErrorRetryDeadline, TimeoutError.intoInner]
    · simp [dnsErrorRetryDeadline, TimeoutError.intoInner]
  · simp [dnsErrorRetryDeadline, TimeoutError.intoInner]

/-- Witness for C7: a `NoRecordsFound` failure carrying deadline 42 arms
the delay for exactly 42. -/
theorem canonicalize_error_retry_deadline_witness :
    (taskPollStep ⟨webTarget, Cache.Unresolved⟩ ⟨[], 2, true, false⟩
        (RefineResult.refineErr
          (TimeoutError.inner
            ⟨ResolveErrorKind.NoRecordsFound (some 42)⟩) 7)).validUntil
      = some 42 :=
  ((canonicalize_error_retry_deadline ⟨webTarget, Cache.Unresolved⟩
      ⟨[], 2, true, false⟩
      (TimeoutError.inner ⟨ResolveErrorKind.NoRecordsFound (some 42)⟩)
      7 rfl).2).1

/-- Claim C8: a target declaring itself non-refinable is passed through:
`make` returns exactly the inner stack's value for the original target
(wrapped `Either::B`) and spawns no DNS task; a task — hence a DNS refine
request — is spawned iff the target is refinable, and a socket address is
never refinable. -/
theorem canonicalize_concrete_passthrough {E V : Type}
    (innerMake : Addr → Except E V) (a : Addr)
    (h : a.shouldCanonicalize = false) :
    canonicalizeMake innerMake a = ((innerMake a).map SvcEither.B, false) ∧
    (∀ b : Addr,
      (canonicalizeMake innerMake b).2 = b.shouldCanonicalize) ∧
    (∀ sa : Nat, (Addr.Socket sa).shouldCanonicalize = false) := by
  refine ⟨by simp [canonicalizeMake, h], ?_, fun sa => rfl⟩
  intro b
  by_cases hb : b.shouldCanonicalize = true <;>
    simp [canonicalizeMake, hb]

/-- Witness for C8: a socket-address target is passed straight to the
inner stack, with no task spawned. -/
theorem canonicalize_concrete_passthrough_witness :
    canonicalizeMake (fun x => (Except.ok x : Except Unit Addr))
        (Addr.Socket 7)
      = (Except.ok (SvcEither.B (Addr.Socket 7)), false) :=
  (canonicalize_concrete_passthrough
    (fun x => (Except.ok x : Except Unit Addr)) (Addr.Socket 7) rfl).1

/-- Claim C9: the discovery adapter maps an `Add(addr, endpoint)` event to
`Insert(addr, service)` with the factory invoked exactly once (on that
endpoint), maps `Remove(addr)` to `Remove(addr)`, surfaces a
resolution-stream failure as `Error::Resolve` and a factory failure as
`Error::Stack`, and propagates not-ready. -/
theorem discover_poll_translates_events
    {T V R M : Type} (make : T → Except M V) (addr : Nat) (target : T)
    (svc : V) (r : R) (m : M)
    (hmk : make target = Except.ok svc) :
    discoverPoll make (Poll.ready (Update.Add addr target) :
        Poll (Update T) R)
      = Poll.ready (Change.Insert addr svc) ∧
    discoverPollMakeCalls
        (Poll.ready (Update.Add addr target) : Poll (Update T) R)
      = [target] ∧
    discoverPoll make (Poll.ready (Update.Remove addr) : Poll (Update T) R)
      = Poll.ready (Change.Remove addr) ∧
    discoverPollMakeCalls
        (Poll.ready (Update.Remove addr) : Poll (Update T) R) = [] ∧
    discoverPoll make (Poll.err r) = Poll.err (ResBalError.Resolve r) ∧
    (∀ t2 : T, make t2 = Except.error m →
      discoverPoll make (Poll.ready (Update.Add addr t2) :
          Poll (Update T) R)
        = Poll.err (ResBalError.Stack m)) ∧
    discoverPoll make (Poll.notReady : Poll (Update T) R)
      = Poll.notReady := by
  refine ⟨?_, rfl, rfl, rfl, rfl, ?_, rfl⟩
  · simp [discoverPoll, hmk]
  · intro t2 h2
    simp [discoverPoll, h2]

/-- Draining a queue whose last element is `last` ends with the service
built from `last` alone, the queue fully consumed, provided every earlier
rebuild succeeds. -/
theorem drainAndRebuild_to_last {E V : Type} (make : Addr → Except E V)
    (qs : List Addr) (last : Addr) (svc : V) (s0 : Option V)
    (hok : ∀ a ∈ qs, ∃ w, make a = Except.ok w)
    (hlast : make last = Except.ok svc) :
    drainAndRebuild make (qs ++ [last]) s0 = ([], some svc, none) := by
  induction qs generalizing s0 with
  | nil => simp [drainAndRebuild, hlast]
  | cons a qs ih =>
      obtain ⟨w, hw⟩ := hok a (List.mem_cons_self a qs)
      have ih2 := ih (some w) (fun b hb => hok b (List.mem_cons_of_mem a hb))
      simp only [List.cons_append, drainAndRebuild, hw]
      exact ih2

/-- Claim C5: a readiness poll drains every queued update before readiness
is computed; the downstream service left live is built from the most
recent queued value alone, each rebuild replacing (not layering on top of)
the previous service, so at most one downstream service exists afterward;
readiness is then that rebuilt service's readiness. -/
theorem canonicalize_drains_to_latest {E V : Type}
    (make : Addr → Except E V) (pollSvc : V → Poll Unit E)
    (s : ConsumerState V) (qs : List Addr) (last : Addr) (svc : V)
    (hq : s.queued = qs ++ [last])
    (hok : ∀ a ∈ qs, ∃ w, make a = Except.ok w)
    (hlast : make last = Except.ok svc) :
    drainAndRebuild make s.queued s.service = ([], some svc, none) ∧
    servicePollReady make pollSvc s = (pollSvc svc, ⟨[], some svc⟩) := by
  have hd : drainAndRebuild make s.queued s.service
      = ([], some svc, none) := by
    rw [hq]
    exact drainAndRebuild_to_last make qs last svc s.service hok hlast
  refine ⟨hd, ?_⟩
  unfold servicePollReady
  rw [hd]

/-- Witness for C5: with two updates queued and no service yet, one
readiness poll empties the queue and leaves exactly the service built from
the later update, reporting its readiness. -/
theorem canonicalize_drains_to_latest_witness :
    servicePollReady (fun a => (Except.ok a : Except Unit Addr))
        (fun _ => Poll.ready ()) ⟨[webTarget, canonTarget], none⟩
      = (Poll.ready (), ⟨[], some canonTarget⟩) :=
  (canonicalize_drains_to_latest (fun a => (Except.ok a : Except Unit Addr))
    (fun _ => Poll.ready ()) ⟨[webTarget, canonTarget], none⟩
    [webTarget] canonTarget canonTarget rfl
    (fun a _ => ⟨a, rfl⟩) rfl).2

/-- Claim C6 counterexample: from the fresh `channel(2)` — whose single
sender delivers three undelivered values before parking — with the
consumer never draining, four successive refinements to distinct canonical
names leave the task caching `Resolved` of the fourth value while the
channel holds only the first three: the recorded value was silently
dropped — the task did not terminate, and no later value was delivered —
so the claimed delivery guarantee for recorded `Resolved` values fails. -/
theorem canonicalize_full_channel_drop_cx :
    (taskRun ⟨webTarget, Cache.AwaitingInitial⟩ ⟨[], 2, true, false⟩
        fourDistinctRefines).task.resolved
      = Cache.Resolved (Addr.Name ⟨"web.d.example.com.", 8080⟩) ∧
    (taskRun ⟨webTarget, Cache.AwaitingInitial⟩ ⟨[], 2, true, false⟩
        fourDistinctRefines).terminated = false ∧
    (taskRun ⟨webTarget, Cache.AwaitingInitial⟩ ⟨[], 2, true, false⟩
        fourDistinctRefines).chan.buffer
      = [Addr.Name ⟨"web.a.example.com.", 8080⟩,
         Addr.Name ⟨"web.b.example.com.", 8080⟩,
         Addr.Name ⟨"web.c.example.com.", 8080⟩] ∧
    Addr.Name ⟨"web.d.example.com.", 8080⟩
      ∉ (taskRun ⟨webTarget, Cache.AwaitingInitial⟩ ⟨[], 2, true, false⟩
          fourDistinctRefines).chan.buffer := by
  decide

/-- Claim C6 (amended): the publish channel created by `Stack::make` for a
refinable target is created with buffer size 2 and starts empty, connected
and with its single sender unparked; the sender parks only after a send
overfills the buffer, so three successive sends from the fresh channel —
the initial published value and two subsequent updates, in particular the
initial value and one update — are all delivered and only a fourth is
refused; and whenever the task records a new `Resolved` cache value while
the channel is connected and its sender not parked, exactly that value is
delivered into the channel.  (When the sender is parked — three
undelivered values — the source records the value but the send is dropped,
so the consumer is not guaranteed to observe the most recent resolved
value.) -/
theorem canonicalize_publish_unparked {E V : Type}
    (innerMake : Addr → Except E V) (a : Addr) (m : MadeCanonical V)
    (hm : (canonicalizeMake innerMake a).1 = Except.ok (SvcEither.A m))
    (t : TaskState) (ch : Channel Addr) (name : String) (vu : Nat)
    (hconn : ch.connected = true)
    (hpark : ch.parked = false)
    (hnew : t.resolved.get ≠ some (t.original.withCanonical name)) :
    (m.chan = ⟨[], 2, true, false⟩) ∧
    (∀ v1 v2 v3 v4 : Addr,
      (((⟨[], 2, true, false⟩ : Channel Addr).trySend v1).1.trySend
          v2).1.trySend v3
        = (⟨[v1, v2, v3], 2, true, true⟩, none) ∧
      (⟨[v1, v2, v3], 2, true, true⟩ : Channel Addr).trySend v4
        = (⟨[v1, v2, v3], 2, true, true⟩, some TrySendError.full)) ∧
    (taskPollStep t ch (RefineResult.refineOk name vu)).chan.buffer
      = ch.buffer ++ [t.original.withCanonical name] ∧
    (taskPollStep t ch (RefineResult.refineOk name vu)).task.resolved
      = Cache.Resolved (t.original.withCanonical name) ∧
    (taskPollStep t ch (RefineResult.refineOk name vu)).terminated
      = false := by
  have hchan : m.chan = ⟨[], 2, true, false⟩ := by
    by_cases hc : a.shouldCanonicalize = true
    · rw [canonicalizeMake, if_pos hc] at hm
      have h2 := SvcEither.A.inj (Except.ok.inj hm)
      rw [← h2]
    · rw [canonicalizeMake, if_neg hc] at hm
      cases hmk : innerMake a with
      | ok w =>
          rw [hmk] at hm
          simp [Except.map] at hm
      | error e2 =>
          rw [hmk] at hm
          simp [Except.map] at hm
  rw [taskPollStep_ok_publish t ch name vu hconn hpark hnew]
  exact ⟨hchan, fun v1 v2 v3 v4 => ⟨rfl, rfl⟩, rfl, rfl, rfl⟩

/-- Witness for C6 (amended): a fresh channel with an unparked sender
accepts the first resolved value, which is recorded and delivered
together. -/
theorem canonicalize_publish_unparked_witness :
    (taskPollStep ⟨webTarget, Cache.AwaitingInitial⟩ ⟨[], 2, true, false⟩
        (RefineResult.refineOk "web.example.com." 10)).chan.buffer
      = [canonTarget] :=
  ((canonicalize_publish_unparked
    (fun x => (Except.ok x : Except Unit Addr)) webTarget
    ⟨⟨webTarget, Cache.AwaitingInitial⟩, ⟨[], 2, true, false⟩, ⟨[], none⟩⟩ rfl
    ⟨webTarget, Cache.AwaitingInitial⟩ ⟨[], 2, true, false⟩ "web.example.com." 10
    rfl rfl (by simp [Cache.get])).2.2).1

/-- Witness for C9: a concrete `Add` event builds the backend through the
factory and yields the corresponding `Insert`. -/
theorem discover_poll_translates_events_witness :
    discoverPoll
        (fun n => if n = 0 then (Except.error "stack failure" :
            Except String Nat)
          else Except.ok (n + 100))
        (Poll.ready (Update.Add 9 3) : Poll (Update Nat) Unit)
      = Poll.ready (Change.Insert 9 103) :=
  (discover_poll_translates_events
    (fun n => if n = 0 then (Except.error "stack failure" :
        Except String Nat)
      else Except.ok (n + 100)) 9 3 103 () "stack failure" rfl).1

end LinkerdVerify
